import Mathlib

/-!
Verification of the task-routing and delegation core of the multi-agent
assistant platform, as documented in the repository's wiki sources.

Each definition below is a shallow embedding of a function from the
repository (wiki-embedded Python for the backend, `static/js/chat.js` for
the web client).  Timestamps are modelled as integers, confidence scores
as rationals.  Definitions that embed behavior the repository only
declares (configuration constants, interface prompts) but never
implements are marked `Modelled from the spec:` in their doc comment.
-/

/-! ## Calendar interval conflict checking

From `wiki-deploy/Database-Schema.md` (`CalendarEvent.conflicts_with`) and
`wiki-deploy/Agent-Framework.md` (`_check_conflicts`). -/

/-- A calendar event, reduced to the two fields the conflict check reads
(`start_time`, `end_time`), with timestamps as integers. -/
structure CalendarEvent where
  start_time : Int
  end_time : Int
deriving DecidableEq, Repr

/-- Embedding of `CalendarEvent.conflicts_with(self, start_time, end_time)`:
`not (self.end_time <= start_time or self.start_time >= end_time)`. -/
def CalendarEvent.conflicts_with (e : CalendarEvent) (start_time end_time : Int) : Bool :=
  !(decide (e.end_time ≤ start_time) || decide (e.start_time ≥ end_time))

/-- Embedding of `CalendarAgent._check_conflicts(start_time, end_time)`:
the query filter `CalendarEvent.start_time < end_time` and
`CalendarEvent.end_time > start_time` over the stored events. -/
def check_conflicts (events : List CalendarEvent) (start_time end_time : Int) :
    List CalendarEvent :=
  events.filter fun e => decide (e.start_time < end_time) && decide (e.end_time > start_time)

/-- The boolean conflict check agrees with the strict-inequality
characterisation `existing.start < candidate.end ∧ existing.end > candidate.start`. -/
theorem conflicts_with_iff (e : CalendarEvent) (s t : Int) :
    e.conflicts_with s t = true ↔ e.start_time < t ∧ e.end_time > s := by
  simp [CalendarEvent.conflicts_with]
  omega

/-- Claim C3 (amended): the conflict check reports a conflict exactly when
`existing.start < candidate.end` and `existing.end > candidate.start`, both
as a predicate on one event and through `_check_conflicts` over a stored
list; consequently two intervals that merely touch at a boundary (one's
end equals the other's start) never conflict.  (A zero-duration interval
placed strictly inside another interval does conflict; see the
counterexample `c3_zero_duration_conflicts`.) -/
theorem c3_conflict_semantics (e : CalendarEvent) (events : List CalendarEvent) (s t : Int) :
    (e.conflicts_with s t = true ↔ e.start_time < t ∧ e.end_time > s) ∧
    (e ∈ check_conflicts events s t ↔ e ∈ events ∧ e.start_time < t ∧ e.end_time > s) ∧
    (e.end_time = s → e.conflicts_with s t = false) ∧
    (e.start_time = t → e.conflicts_with s t = false) := by
  refine ⟨conflicts_with_iff e s t, ?_, ?_, ?_⟩
  · simp [check_conflicts, List.mem_filter]
  · intro h
    simp [CalendarEvent.conflicts_with, h]
  · intro h
    simp [CalendarEvent.conflicts_with, h]

/-- Counterexample to claim C3 as stated: the zero-duration candidate
interval `[5, 5)` does conflict with the existing event `[0, 10)`, so a
zero-duration interval is not conflict-free under the code's check. -/
theorem c3_zero_duration_conflicts :
    (CalendarEvent.mk 0 10).conflicts_with 5 5 = true := by
  decide

/-- Witness for C3 at concrete touching intervals: the event `[0, 10)`
conflicts neither with the candidate `[10, 12)` that starts at its end
nor with the candidate `[-3, 0)` that ends at its start. -/
theorem c3_conflict_semantics_witness :
    (CalendarEvent.mk 0 10).conflicts_with 10 12 = false ∧
    (CalendarEvent.mk 0 10).conflicts_with (-3) 0 = false :=
  ⟨(c3_conflict_semantics (CalendarEvent.mk 0 10) [] 10 12).2.2.1 rfl,
   (c3_conflict_semantics (CalendarEvent.mk 0 10) [] (-3) 0).2.2.2 rfl⟩

/-- Claim C7: conflict detection is symmetric — event `A` checked against
`B`'s time range conflicts exactly when event `B` checked against `A`'s
time range does. -/
theorem c7_conflict_symm (A B : CalendarEvent) :
    A.conflicts_with B.start_time B.end_time = B.conflicts_with A.start_time A.end_time := by
  have hge : ∀ a b : Int, decide (a ≥ b) = decide (b ≤ a) := fun a b => rfl
  unfold CalendarEvent.conflicts_with
  rw [hge, hge, Bool.or_comm]

/-! ## Circuit breaker

From `wiki/Troubleshooting.md`, class `CircuitBreaker`.  Wall-clock time
(`time.time()`) is modelled as an integer parameter `now` supplied to each
call, and the wrapped operation's outcome as a boolean `opSucceeds`. -/

/-- The three breaker states of the Python class (`self.state`). -/
inductive CBStatus where
  | CLOSED
  | OPEN
  | HALF_OPEN
deriving DecidableEq, Repr

/-- The mutable fields of the Python `CircuitBreaker` object.
`last_failure_time` is `none` until the first failure, matching the
Python initial value `None`. -/
structure CircuitBreaker where
  failure_threshold : Nat
  timeout : Int
  failure_count : Nat
  last_failure_time : Option Int
  state : CBStatus
deriving DecidableEq, Repr

/-- Embedding of `CircuitBreaker.__init__(failure_threshold=5, timeout=60)`. -/
def CircuitBreaker.start (failure_threshold : Nat) (timeout : Int) : CircuitBreaker :=
  ⟨failure_threshold, timeout, 0, none, CBStatus.CLOSED⟩

/-- Observable outcome of one `call`: fail-fast rejection, the wrapped
operation's result returned, or the wrapped operation's exception
re-raised. -/
inductive CallOutcome where
  | circuitOpen
  | success
  | failureRaised
deriving DecidableEq, Repr

/-- One `call` of the breaker: the updated object, the outcome, and
whether the wrapped backend operation was invoked at all. -/
structure CallStep where
  breaker : CircuitBreaker
  outcome : CallOutcome
  invoked : Bool
deriving DecidableEq, Repr

/-- The leading `if self.state == 'OPEN'` block of `CircuitBreaker.call`:
returns the breaker after the block and whether execution proceeds to the
wrapped operation (`false` means the `Circuit breaker is OPEN` exception
is raised).  When `last_failure_time` is `None` in state OPEN the Python
code would crash on `time.time() - None`; that state is unreachable (see
`cbReachable_invariant`), and the model fails fast there. -/
def CBpre (cb : CircuitBreaker) (now : Int) : CircuitBreaker × Bool :=
  match cb.state, cb.last_failure_time with
  | CBStatus.OPEN, some t =>
      if now - t > cb.timeout then ({ cb with state := CBStatus.HALF_OPEN }, true)
      else (cb, false)
  | CBStatus.OPEN, none => (cb, false)
  | _, _ => (cb, true)

/-- The `try`/`except` body of `CircuitBreaker.call`: on success, a
HALF_OPEN breaker closes and resets `failure_count`; on failure, the
count is incremented, `last_failure_time` refreshed, and the breaker
opens once the count reaches `failure_threshold`. -/
def CBproceed (cb : CircuitBreaker) (now : Int) (opSucceeds : Bool) :
    CircuitBreaker × CallOutcome :=
  if opSucceeds then
    (if cb.state = CBStatus.HALF_OPEN then
       { cb with state := CBStatus.CLOSED, failure_count := 0 }
     else cb,
     CallOutcome.success)
  else
    let fc := cb.failure_count + 1
    ({ cb with
        failure_count := fc,
        last_failure_time := some now,
        state := if cb.failure_threshold ≤ fc then CBStatus.OPEN else cb.state },
     CallOutcome.failureRaised)

/-- Embedding of `CircuitBreaker.call(self, operation, ...)` at time `now`
with the operation's outcome `opSucceeds`. -/
def CBcall (cb : CircuitBreaker) (now : Int) (opSucceeds : Bool) : CallStep :=
  match CBpre cb now with
  | (cb1, true) =>
      let r := CBproceed cb1 now opSucceeds
      ⟨r.1, r.2, true⟩
  | (cb1, false) => ⟨cb1, CallOutcome.circuitOpen, false⟩

/-- Breaker states reachable from a freshly constructed breaker by any
sequence of calls at arbitrary times and operation outcomes. -/
inductive CBReachable : CircuitBreaker → Prop where
  | start (th : Nat) (tm : Int) : CBReachable (CircuitBreaker.start th tm)
  | step (cb : CircuitBreaker) (now : Int) (b : Bool) :
      CBReachable cb → CBReachable (CBcall cb now b).breaker

/-- The breaker invariant: away from CLOSED, the failure count has
reached the threshold and a failure time is recorded. -/
abbrev CBinv (cb : CircuitBreaker) : Prop :=
  cb.state ≠ CBStatus.CLOSED →
    cb.failure_threshold ≤ cb.failure_count ∧ cb.last_failure_time ≠ none

/-- One call of the breaker preserves the invariant `CBinv`. -/
theorem CBinv_step (cb : CircuitBreaker) (now : Int) (b : Bool) (h : CBinv cb) :
    CBinv (CBcall cb now b).breaker := by
  rcases cb with ⟨th, tm, fc, lf, st⟩
  unfold CBinv at h ⊢
  rcases st with _ | _ | _ <;> rcases lf with _ | t <;> rcases b with _ | _ <;>
    simp_all [CBcall, CBpre, CBproceed] <;>
      (try split_ifs <;> simp_all) <;> (try omega)

/-- Invariant of reachable breakers. -/
theorem cbReachable_invariant (cb : CircuitBreaker) (h : CBReachable cb) : CBinv cb := by
  induction h with
  | start th tm => intro hne; exact absurd rfl hne
  | step cb now b hr ih => exact CBinv_step cb now b ih

/-- Claim C4: the breaker state machine — (1) a failure in CLOSED opens
the breaker exactly when the incremented count reaches the threshold;
(2) a call in OPEN after more than `timeout` has elapsed since the last
failure moves the breaker to HALF_OPEN and proceeds to probe the backend;
(3) a successful probe from HALF_OPEN closes the breaker and resets the
failure count; (4) from any reachable OPEN breaker, a failed probe after
the timeout reopens the breaker and refreshes the last-failure time. -/
theorem c4_state_machine (cb : CircuitBreaker) (now t : Int) :
    (cb.state = CBStatus.CLOSED →
       (CBcall cb now false).breaker.state =
         (if cb.failure_threshold ≤ cb.failure_count + 1 then CBStatus.OPEN
          else CBStatus.CLOSED)) ∧
    (cb.state = CBStatus.OPEN → cb.last_failure_time = some t → now - t > cb.timeout →
       CBpre cb now = ({ cb with state := CBStatus.HALF_OPEN }, true)) ∧
    (cb.state = CBStatus.HALF_OPEN →
       (CBproceed cb now true).1.state = CBStatus.CLOSED ∧
       (CBproceed cb now true).1.failure_count = 0) ∧
    (CBReachable cb → cb.state = CBStatus.OPEN → cb.last_failure_time = some t →
       now - t > cb.timeout →
       (CBcall cb now false).breaker.state = CBStatus.OPEN ∧
       (CBcall cb now false).breaker.last_failure_time = some now) := by
  refine ⟨?_, ?_, ?_, ?_⟩
  · intro hs
    simp [CBcall, CBpre, CBproceed, hs]
  · intro hs hlt helap
    simp [CBpre, hs, hlt, helap]
  · intro hs
    simp [CBproceed, hs]
  · intro hr hs hlt helap
    have hinv := cbReachable_invariant cb hr (by simp [hs])
    have hth : cb.failure_threshold ≤ cb.failure_count + 1 := Nat.le_succ_of_le hinv.1
    simp [CBcall, CBpre, CBproceed, hs, hlt, helap, hth]

/-- Witness for C4 at a concrete breaker: threshold 2, timeout 60, two
recorded failures, OPEN since time 0, probed at time 100. -/
theorem c4_state_machine_witness :
    ((CBcall (CircuitBreaker.mk 2 60 2 (some 0) CBStatus.OPEN) 100 false).breaker.state =
        CBStatus.OPEN ∧
      (CBcall (CircuitBreaker.mk 2 60 2 (some 0) CBStatus.OPEN) 100 false).breaker.last_failure_time =
        some 100) := by
  have hr : CBReachable (CircuitBreaker.mk 2 60 2 (some 0) CBStatus.OPEN) := by
    have h0 := CBReachable.start 2 60
    have h1 := CBReachable.step _ 0 false h0
    have h2 := CBReachable.step _ 0 false h1
    simpa [CBcall, CBpre, CBproceed, CircuitBreaker.start] using h2
  exact (c4_state_machine (CircuitBreaker.mk 2 60 2 (some 0) CBStatus.OPEN) 100 0).2.2.2
    hr rfl rfl (by decide)

/-- Claim C5: while the breaker is OPEN and strictly less than
`resetTimeout` has elapsed since the last failure, a call fails fast with
the circuit-open error, the backend operation is never invoked, and the
breaker is unchanged. -/
theorem c5_open_fails_fast (cb : CircuitBreaker) (now t : Int) (b : Bool)
    (hs : cb.state = CBStatus.OPEN) (hlt : cb.last_failure_time = some t)
    (helap : now - t < cb.timeout) :
    CBcall cb now b = ⟨cb, CallOutcome.circuitOpen, false⟩ := by
  have hne : ¬ (now - t > cb.timeout) := by omega
  simp [CBcall, CBpre, hs, hlt, hne]

/-- Witness for C5: a breaker that opened at time 0 with timeout 60,
called again at time 30. -/
theorem c5_open_fails_fast_witness :
    CBcall (CircuitBreaker.mk 5 60 5 (some 0) CBStatus.OPEN) 30 true =
      ⟨CircuitBreaker.mk 5 60 5 (some 0) CBStatus.OPEN, CallOutcome.circuitOpen, false⟩ :=
  c5_open_fails_fast (CircuitBreaker.mk 5 60 5 (some 0) CBStatus.OPEN) 30 0 true
    rfl rfl (by decide)

/-! ## Retry with exponential backoff

From `wiki/Troubleshooting.md`, `ErrorRecoveryManager.with_retry`.  The
wrapped operation is modelled as a function from the attempt index to an
`Except` outcome; the trace records the returned/raised value, how many
times the operation was invoked, and the backoff sleeps performed. -/

/-- Observable trace of one `with_retry` run: the value returned (`ok`)
or the exception raised (`error`); `none` only when the loop body never
runs (`max_retries = 0`, where the Python function falls through and
returns `None`).  `waits` lists the `2 ** attempt` sleeps performed, in
order. -/
structure RetryTrace (E A : Type) where
  result : Option (Except E A)
  invocations : Nat
  waits : List Nat

/-- The `for attempt in range(self.max_retries)` loop of `with_retry`,
with `remaining` iterations left and the current `attempt` index.  A
successful attempt returns immediately; a failed final attempt
(`attempt == self.max_retries - 1`) re-raises; otherwise the loop sleeps
`2 ** attempt` seconds and continues. -/
def withRetryGo (op : Nat → Except E A) (max_retries : Nat) :
    Nat → Nat → RetryTrace E A
  | _, 0 => ⟨none, 0, []⟩
  | attempt, remaining + 1 =>
    match op attempt with
    | Except.ok a => ⟨some (Except.ok a), 1, []⟩
    | Except.error e =>
      if attempt = max_retries - 1 then ⟨some (Except.error e), 1, []⟩
      else
        let rest := withRetryGo op max_retries (attempt + 1) remaining
        ⟨rest.result, rest.invocations + 1, 2 ^ attempt :: rest.waits⟩

/-- Embedding of `ErrorRecoveryManager(max_retries).with_retry(operation)`. -/
def with_retry (op : Nat → Except E A) (max_retries : Nat) : RetryTrace E A :=
  withRetryGo op max_retries 0 max_retries

/-- Claim C6: `with_retry` with `max_retries = 3` invokes the operation
at most 3 times, sleeps `2 ^ attempt` seconds after each failed
non-final attempt (1s then 2s), returns the result of the first
successful attempt, and when all three attempts fail re-raises the third
attempt's error. -/
theorem c6_with_retry (op : Nat → Except E A) :
    (with_retry op 3).invocations ≤ 3 ∧
    (∀ a, op 0 = Except.ok a →
       with_retry op 3 = ⟨some (Except.ok a), 1, []⟩) ∧
    (∀ e a, op 0 = Except.error e → op 1 = Except.ok a →
       with_retry op 3 = ⟨some (Except.ok a), 2, [1]⟩) ∧
    (∀ e e₁ a, op 0 = Except.error e → op 1 = Except.error e₁ → op 2 = Except.ok a →
       with_retry op 3 = ⟨some (Except.ok a), 3, [1, 2]⟩) ∧
    (∀ e e₁ e₂, op 0 = Except.error e → op 1 = Except.error e₁ → op 2 = Except.error e₂ →
       with_retry op 3 = ⟨some (Except.error e₂), 3, [1, 2]⟩) := by
  refine ⟨?_, ?_, ?_, ?_, ?_⟩
  · rcases h0 : op 0 with e | a
    · rcases h1 : op 1 with e₁ | a₁
      · rcases h2 : op 2 with e₂ | a₂ <;>
          simp [with_retry, withRetryGo, h0, h1, h2]
      · simp [with_retry, withRetryGo, h0, h1]
    · simp [with_retry, withRetryGo, h0]
  · intro a h0
    simp [with_retry, withRetryGo, h0]
  · intro e a h0 h1
    simp [with_retry, withRetryGo, h0, h1]
  · intro e e₁ a h0 h1 h2
    simp [with_retry, withRetryGo, h0, h1, h2]
  · intro e e₁ e₂ h0 h1 h2
    simp [with_retry, withRetryGo, h0, h1, h2]

/-- Witness for C6 at a concrete operation that fails on attempts 0 and 1
and succeeds on attempt 2. -/
theorem c6_with_retry_witness :
    with_retry
        (fun n => if n < 2 then (Except.error "down" : Except String String)
                  else Except.ok "up") 3 =
      ⟨some (Except.ok "up"), 3, [1, 2]⟩ := by
  have h :=
    (c6_with_retry
        (fun n => if n < 2 then (Except.error "down" : Except String String)
                  else Except.ok "up")).2.2.2.1
  exact h "down" "down" "up" rfl rfl rfl

/-! ## Workflow session state

From `wiki-deploy/Agent-Framework.md`, dataclass `WorkflowState` and its
`add_message` method.  The value type of the `agent_states` and `context`
dictionaries is a type parameter `V`; `datetime.utcnow()` is passed in as
the integer `now`. -/

/-- One entry of `message_history`, as built by `add_message`. -/
structure WMessage where
  role : String
  content : String
  agent_type : Option String
  timestamp : Int
deriving DecidableEq, Repr

/-- The `WorkflowState` dataclass. -/
structure WorkflowState (V : Type) where
  session_id : String
  created_at : Int
  last_activity : Int
  message_history : List WMessage
  agent_states : List (String × V)
  context : List (String × V)
deriving DecidableEq, Repr

/-- Embedding of `WorkflowState.add_message(role, content, agent_type)` at wall-clock
time `now`: appends one entry to `message_history` and refreshes
`last_activity`. -/
def WorkflowState.add_message (s : WorkflowState V) (role content : String)
    (agent_type : Option String) (now : Int) : WorkflowState V :=
  { s with
      message_history := s.message_history ++ [⟨role, content, agent_type, now⟩],
      last_activity := now }

/-- Claim C8: `add_message` appends exactly one entry at the end of
`message_history`, leaving every previously present entry unchanged and
in its original order, updates `last_activity`, and leaves `session_id`,
`created_at`, `agent_states` and `context` unchanged. -/
theorem c8_add_message_frame (s : WorkflowState V) (role content : String)
    (agent_type : Option String) (now : Int) :
    (s.add_message role content agent_type now).message_history =
        s.message_history ++ [⟨role, content, agent_type, now⟩] ∧
    (s.add_message role content agent_type now).last_activity = now ∧
    (s.add_message role content agent_type now).session_id = s.session_id ∧
    (s.add_message role content agent_type now).created_at = s.created_at ∧
    (s.add_message role content agent_type now).agent_states = s.agent_states ∧
    (s.add_message role content agent_type now).context = s.context :=
  ⟨rfl, rfl, rfl, rfl, rfl, rfl⟩

/-! ## Workflow engine task processing and the iteration cap

The repository declares the cap (`MAX_AGENT_ITERATIONS`, default 10, in
`SecurityConfig` and `Config`) but the engine loop that enforces it is
not present in the sources, so the `processTask` contract is modelled
from the spec. -/

/-- The `MAX_AGENT_ITERATIONS` setting: default value 10, declared in
`SecurityConfig` (security guidelines) and `Config`
(`Home` wiki page). -/
def MAX_AGENT_ITERATIONS : Nat := 10

/-- The error kinds `processTask` can reject a task with. -/
inductive EngineError where
  | InvalidInputError
  | IterationLimitExceeded
deriving DecidableEq, Repr

/-- The per-session engine state tracked by `processTask`: the message
history and the bounded-loop counter. -/
structure EngineSession where
  iterationCount : Nat
  messageHistory : List WMessage
deriving DecidableEq, Repr

/-- A fresh session: zero iterations, empty history. -/
def EngineSession.fresh : EngineSession := ⟨0, []⟩

/-- Result of one `processTask` call: the updated session, the structured
result or error, and whether a worker was dispatched. -/
structure TaskOutcome where
  session : EngineSession
  result : Except EngineError String
  workerInvoked : Bool

/-- Modelled from the spec: `processTask(sessionId, rawInput)` of the
Workflow Engine (§4.1), whose implementation is absent from the sources —
only the `MAX_AGENT_ITERATIONS` configuration is declared.  Per the spec:
reject empty input with `InvalidInputError`; append the input as a `user`
message; increment `iterationCount`; if it exceeds `maxIterations`, fail
with `IterationLimitExceeded` and do not dispatch; otherwise dispatch the
worker (modelled as the function `worker`) and append its response as an
`assistant` message.  Wall-clock time is the integer `now`. -/
def processTask (maxIterations : Nat) (worker : String → String)
    (s : EngineSession) (input : String) (now : Int) : TaskOutcome :=
  if input = "" then
    ⟨s, Except.error EngineError.InvalidInputError, false⟩
  else
    let s₁ : EngineSession :=
      ⟨s.iterationCount + 1,
       s.messageHistory ++ [⟨"user", input, none, now⟩]⟩
    if s₁.iterationCount > maxIterations then
      ⟨s₁, Except.error EngineError.IterationLimitExceeded, false⟩
    else
      let response := worker input
      ⟨⟨s₁.iterationCount,
        s₁.messageHistory ++ [⟨"assistant", response, none, now⟩]⟩,
       Except.ok response, true⟩

/-- Whether an `Except` result is a success. -/
def isOkB : Except E A → Bool
  | Except.ok _ => true
  | Except.error _ => false

/-- Runs `n` consecutive `processTask` calls on one session starting from a
fresh session, with the `k`-th call sending `inputs k` at time `times k`;
the boolean records whether every call so far succeeded. -/
def runTasks (maxIterations : Nat) (worker : String → String)
    (inputs : Nat → String) (times : Nat → Int) : Nat → EngineSession × Bool
  | 0 => (EngineSession.fresh, true)
  | n + 1 =>
    let p := runTasks maxIterations worker inputs times n
    let o := processTask maxIterations worker p.1 (inputs n) (times n)
    (o.session, p.2 && isOkB o.result)

/-- Claim C1: starting from a fresh session, `N` calls to `processTask`
with non-empty inputs and `N ≤ maxIterations` all succeed and leave
`iterationCount = N`; and on any session whose `iterationCount` has
reached `maxIterations`, a call never succeeds and never invokes a
worker, and with non-empty input it is rejected with
`IterationLimitExceeded`. -/
theorem c1_iteration_limit (maxIterations N : Nat) (worker : String → String)
    (inputs : Nat → String) (times : Nat → Int) (s : EngineSession)
    (input : String) (now : Int) :
    (N ≤ maxIterations → (∀ k, k < N → inputs k ≠ "") →
       (runTasks maxIterations worker inputs times N).1.iterationCount = N ∧
       (runTasks maxIterations worker inputs times N).2 = true) ∧
    (maxIterations ≤ s.iterationCount →
       isOkB (processTask maxIterations worker s input now).result = false ∧
       (processTask maxIterations worker s input now).workerInvoked = false ∧
       (input ≠ "" →
         (processTask maxIterations worker s input now).result =
           Except.error EngineError.IterationLimitExceeded)) := by
  constructor
  · induction N with
    | zero =>
        intro _ _
        exact ⟨rfl, rfl⟩
    | succ n ih =>
        intro hle hne
        have hn : n ≤ maxIterations := Nat.le_of_succ_le hle
        have hprev := ih hn (fun k hk => hne k (Nat.lt_succ_of_lt hk))
        have hinp : inputs n ≠ "" := hne n (Nat.lt_succ_self n)
        have hcap : ¬ (maxIterations < n + 1) := Nat.not_lt.mpr hle
        constructor
        · simp [runTasks, processTask, hinp, hprev.1, hcap]
        · simp [runTasks, processTask, hinp, hprev.1, hprev.2, hcap, isOkB]
  · intro hcap
    rcases hinp : input == "" with _ | _
    · have hne : ¬ (input = "") := by
        simpa using hinp
      have hover : s.iterationCount + 1 > maxIterations := by omega
      refine ⟨?_, ?_, fun _ => ?_⟩ <;>
        simp [processTask, hne, hover, isOkB]
    · have heq : input = "" := by
        simpa using hinp
      refine ⟨?_, ?_, fun hne => absurd heq hne⟩ <;>
        simp [processTask, heq, isOkB]

/-- Witness for C1: with the default cap `MAX_AGENT_ITERATIONS = 10`, ten
tasks succeed from a fresh session leaving `iterationCount = 10`, and an
eleventh task on that session is rejected with `IterationLimitExceeded`
without invoking a worker. -/
theorem c1_iteration_limit_witness :
    ((runTasks MAX_AGENT_ITERATIONS (fun _ => "ok") (fun _ => "task") (fun _ => 0)
        10).1.iterationCount = 10 ∧
      (runTasks MAX_AGENT_ITERATIONS (fun _ => "ok") (fun _ => "task") (fun _ => 0)
        10).2 = true) ∧
    (isOkB (processTask MAX_AGENT_ITERATIONS (fun _ => "ok")
        ⟨10, []⟩ "task" 0).result = false ∧
      (processTask MAX_AGENT_ITERATIONS (fun _ => "ok")
        ⟨10, []⟩ "task" 0).workerInvoked = false ∧
      ("task" ≠ "" →
        (processTask MAX_AGENT_ITERATIONS (fun _ => "ok")
          ⟨10, []⟩ "task" 0).result =
            Except.error EngineError.IterationLimitExceeded)) := by
  constructor
  · exact (c1_iteration_limit MAX_AGENT_ITERATIONS 10 (fun _ => "ok") (fun _ => "task")
      (fun _ => 0) EngineSession.fresh "task" 0).1 (by decide)
      (fun k _ => by decide)
  · exact (c1_iteration_limit MAX_AGENT_ITERATIONS 10 (fun _ => "ok") (fun _ => "task")
      (fun _ => 0) ⟨10, []⟩ "task" 0).2 (by decide)

/-! ## Delegation decisions and the confidence floor

The delegation response shape (`needs_delegation`, `recommended_agent`,
`confidence`, `reasoning`) is declared in
`wiki-deploy/Agent-Framework.md` (`_analyze_delegation_need`), and the
configured floor in `docs/Security-Guidelines.md`
(`PERSONAL_ASSISTANT_CONFIG['delegation_threshold']`), but the engine
code that compares the two is not in the sources; the routing step is
modelled from the spec.  Confidence values are rationals. -/

/-- The structured delegation response produced by
`_analyze_delegation_need`. -/
structure DelegationDecision where
  needs_delegation : Bool
  recommended_agent : Option String
  confidence : ℚ
  reasoning : String

/-- The value `PERSONAL_ASSISTANT_CONFIG['delegation_threshold']` from the security
guidelines: the configured confidence floor for delegation, `0.7`. -/
def delegation_threshold : ℚ := 7 / 10

/-- Modelled from the spec: the engine's routing step (§4.1 step 5),
absent from the sources — only the threshold configuration and the
response shape are declared.  Per the spec: dispatch to the proposed
worker only when delegation is requested, the confidence is at least the
floor, the worker is registered and its breaker is not open; otherwise
dispatch to the coordinator worker. -/
def routeDelegation (floor : ℚ) (coordinator : String) (registered : List String)
    (breakerOpen : String → Bool) (d : DelegationDecision) : String :=
  match d.recommended_agent with
  | some w =>
      if d.needs_delegation && decide (floor ≤ d.confidence) &&
          registered.contains w && !(breakerOpen w) then w
      else coordinator
  | none => coordinator

/-- Counterexample to claim C2 as stated: the configured default
confidence floor in the sources is `delegation_threshold = 0.7`, not
`0.5`. -/
theorem c2_default_floor_counterexample :
    delegation_threshold = 7 / 10 ∧ ¬ (delegation_threshold = 1 / 2) := by
  refine ⟨rfl, ?_⟩
  intro h
  rw [delegation_threshold] at h
  norm_num at h

/-- Claim C2 (amended): for every delegation decision whose confidence is
strictly below the configured confidence floor (default 0.7, from
`PERSONAL_ASSISTANT_CONFIG['delegation_threshold']`), the engine rejects
the delegation and routes the task to the coordinator worker — never to a
proposed target distinct from the coordinator. -/
theorem c2_confidence_floor (floor : ℚ) (coordinator : String)
    (registered : List String) (breakerOpen : String → Bool)
    (d : DelegationDecision) (hconf : d.confidence < floor) :
    routeDelegation floor coordinator registered breakerOpen d = coordinator ∧
    (∀ w, d.recommended_agent = some w → w ≠ coordinator →
      routeDelegation floor coordinator registered breakerOpen d ≠ w) := by
  have hfloor : ¬ (floor ≤ d.confidence) := not_le.mpr hconf
  have hroute : routeDelegation floor coordinator registered breakerOpen d = coordinator := by
    rcases hr : d.recommended_agent with _ | w <;>
      simp [routeDelegation, hr, hfloor]
  exact ⟨hroute, fun w _ hw => by rw [hroute]; exact fun h => hw h.symm⟩

/-- Witness for C2 at a concrete decision: confidence 0.3 with the
default floor 0.7 routes to the coordinator, not to the proposed
`calendar_agent`. -/
theorem c2_confidence_floor_witness :
    routeDelegation delegation_threshold "personal_assistant" ["calendar_agent"]
        (fun _ => false)
        ⟨true, some "calendar_agent", 3 / 10, "low confidence"⟩ =
      "personal_assistant" :=
  (c2_confidence_floor delegation_threshold "personal_assistant" ["calendar_agent"]
      (fun _ => false) ⟨true, some "calendar_agent", 3 / 10, "low confidence"⟩
      (by rw [delegation_threshold]; norm_num)).1

/-! ## Coordinator availability in agent selection

From `wiki-deploy/Agent-Framework.md`:
`PersonalAssistantAgent.can_handle` (returns `True` unconditionally) and
`WorkflowEngine._select_best_agent` (filters registered agents by
`can_handle`, then takes the score maximum).  Scores are rationals;
`max(..., key=...)` keeps the earliest element on ties, and raises on an
empty dict — modelled by an `Option` result. -/

/-- Dictionary-style context, as passed to `can_handle`. -/
def AgentContext : Type := List (String × String)

/-- Embedding of `PersonalAssistantAgent.can_handle(task, context)`: the coordinator
can handle any task by delegating or responding directly. -/
def personal_assistant_can_handle (task : String) (context : AgentContext) : Bool :=
  true

/-- A registered agent as `_select_best_agent` sees it: its `can_handle`
predicate and its `_calculate_agent_score` value. -/
structure RegisteredAgent where
  can_handle : String → AgentContext → Bool
  score : String → AgentContext → ℚ

/-- The `agent_scores` dict built by `_select_best_agent`: one scored
entry per registered agent whose `can_handle` accepts the task. -/
def agent_scores (agents : List (String × RegisteredAgent)) (task : String)
    (context : AgentContext) : List (String × ℚ) :=
  (agents.filter fun p => p.2.can_handle task context).map
    fun p => (p.1, p.2.score task context)

/-- Embedding of `_select_best_agent`: the agent type with the highest confidence
score, `none` when no registered agent accepts the task (where the Python
`max` raises `ValueError`). -/
def select_best_agent (agents : List (String × RegisteredAgent)) (task : String)
    (context : AgentContext) : Option String :=
  match agent_scores agents task context with
  | [] => none
  | x :: xs =>
      some (xs.foldl (fun best p => if best.2 < p.2 then p else best) x).1

/-- Claim C9: the coordinator's `can_handle` returns `true` on every task
and context; hence whenever the personal assistant is registered with
that predicate, `_select_best_agent`'s score dictionary is non-empty and
its maximum is never taken over an empty collection. -/
theorem c9_coordinator_always_handles (task : String) (context : AgentContext)
    (agents : List (String × RegisteredAgent)) (pa : RegisteredAgent)
    (hmem : ("personal_assistant", pa) ∈ agents)
    (hch : pa.can_handle = personal_assistant_can_handle) :
    personal_assistant_can_handle task context = true ∧
    agent_scores agents task context ≠ [] ∧
    (select_best_agent agents task context).isSome = true := by
  have hfilter : ("personal_assistant", pa) ∈
      agents.filter fun p => p.2.can_handle task context := by
    rw [List.mem_filter]
    exact ⟨hmem, by rw [hch]; rfl⟩
  have hscores : ("personal_assistant", pa.score task context) ∈
      agent_scores agents task context :=
    List.mem_map.mpr ⟨("personal_assistant", pa), hfilter, rfl⟩
  have hne : agent_scores agents task context ≠ [] :=
    List.ne_nil_of_mem hscores
  refine ⟨rfl, hne, ?_⟩
  rcases hs : agent_scores agents task context with _ | ⟨x, xs⟩
  · exact absurd hs hne
  · simp [select_best_agent, hs]

/-- Witness for C9 at a concrete registry holding only the coordinator. -/
theorem c9_coordinator_always_handles_witness :
    personal_assistant_can_handle "plan my week" [] = true ∧
    agent_scores [("personal_assistant", ⟨personal_assistant_can_handle, fun _ _ => 1⟩)]
        "plan my week" [] ≠ [] ∧
    (select_best_agent
        [("personal_assistant", ⟨personal_assistant_can_handle, fun _ _ => 1⟩)]
        "plan my week" []).isSome = true :=
  c9_coordinator_always_handles "plan my week" []
    [("personal_assistant", ⟨personal_assistant_can_handle, fun _ _ => 1⟩)]
    ⟨personal_assistant_can_handle, fun _ _ => 1⟩ (List.mem_singleton.mpr rfl) rfl

/-! ## Web client request gating

From `static/js/chat.js`, `ChatInterface.sendMessage` and
`ChatInterface.setProcessing`.  JavaScript runs the synchronous prefix of
`sendMessage` — the trimmed-input/`isProcessing` guard, `setProcessing(true)`
and the `fetch('/api/chat', ...)` call — atomically; the continuation
(response or error handling followed by the `finally` block's
`setProcessing(false)`) runs later as one step.  The model is the
resulting event system: a `send input` event is the synchronous prefix, a
`complete` event the continuation of one issued request; `inFlight`
counts requests issued but not yet completed. -/

/-- The `ChatInterface` fields the gating logic reads and writes, plus
the number of `/api/chat` requests currently in flight. -/
structure ChatState where
  isProcessing : Bool
  inFlight : Nat
deriving DecidableEq, Repr

/-- State of a freshly constructed `ChatInterface`. -/
def ChatState.start : ChatState := ⟨false, 0⟩

/-- The synchronous prefix of `sendMessage()`:
`const message = this.messageInput.value.trim(); if (!message || this.isProcessing) return;`
then `this.setProcessing(true)` and the `fetch` call.  Returns the new
state and whether a request was issued. -/
def sendMessageStart (s : ChatState) (input : String) : ChatState × Bool :=
  if input.trim = "" || s.isProcessing then (s, false)
  else (⟨true, s.inFlight + 1⟩, true)

/-- The continuation of one issued request: the response or error is
handled, then the `finally` block runs `this.setProcessing(false)`. -/
def sendMessageComplete (s : ChatState) : ChatState :=
  ⟨false, s.inFlight - 1⟩

/-- Client states reachable from a fresh `ChatInterface` by interleaving
`sendMessage` invocations and completions of issued requests (the runtime
delivers exactly one completion per issued request, so a completion
requires an in-flight request). -/
inductive ChatReachable : ChatState → Prop where
  | start : ChatReachable ChatState.start
  | send (s : ChatState) (input : String) :
      ChatReachable s → ChatReachable (sendMessageStart s input).1
  | complete (s : ChatState) :
      ChatReachable s → 1 ≤ s.inFlight → ChatReachable (sendMessageComplete s)

/-- Claim C10: `sendMessage` issues no `/api/chat` request when the
trimmed input is empty or a previous request is still processing, and
when it does issue one it has set `isProcessing` first; `isProcessing` is
cleared only by the completion of an issued request; consequently every
reachable client state has at most one request in flight, with
`isProcessing` exactly tracking it. -/
theorem c10_single_request_in_flight (s : ChatState) (input : String) :
    (input.trim = "" ∨ s.isProcessing = true →
       sendMessageStart s input = (s, false)) ∧
    ((sendMessageStart s input).2 = true →
       (sendMessageStart s input).1.isProcessing = true) ∧
    (ChatReachable s →
       s.inFlight ≤ 1 ∧ (s.isProcessing = true ↔ s.inFlight = 1)) := by
  refine ⟨?_, ?_, ?_⟩
  · intro h
    have hcond : (input.trim = "" || s.isProcessing) = true := by
      rcases h with h | h <;> simp [h]
    simp [sendMessageStart, hcond]
  · intro h
    rcases hcond : (input.trim = "" || s.isProcessing) with _ | _
    · simp [sendMessageStart, hcond]
    · simp [sendMessageStart, hcond] at h
  · intro hr
    induction hr with
    | start => simp [ChatState.start]
    | send s' input' hr' ih =>
        rcases hcond : (input'.trim = "" || s'.isProcessing) with _ | _
        · have hproc : s'.isProcessing = false := by
            rcases hp : s'.isProcessing with _ | _
            · rfl
            · simp [hp] at hcond
          have hzero : s'.inFlight = 0 := by
            rcases ih with ⟨hle, hiff⟩
            rcases hf : s'.inFlight with _ | n
            · rfl
            · have : s'.isProcessing = true := hiff.mpr (by omega)
              rw [hproc] at this
              exact absurd this (by simp)
          simp [sendMessageStart, hcond, hzero]
        · simpa [sendMessageStart, hcond] using ih
    | complete s' hr' hf ih =>
        simp [sendMessageComplete]
        omega

/-- Witness for C10: from a fresh interface, sending `"hello"` issues a
request; sending again while it is processing is a no-op; the reachable
state after issue and completion has nothing in flight. -/
theorem c10_single_request_in_flight_witness :
    (sendMessageStart ⟨true, 1⟩ "hello" = (⟨true, 1⟩, false)) ∧
    ((sendMessageStart ChatState.start "hello").2 = true →
       (sendMessageStart ChatState.start "hello").1.isProcessing = true) ∧
    ((sendMessageStart ChatState.start "hello").1.inFlight ≤ 1 ∧
      ((sendMessageStart ChatState.start "hello").1.isProcessing = true ↔
        (sendMessageStart ChatState.start "hello").1.inFlight = 1)) := by
  refine ⟨?_, ?_, ?_⟩
  · exact (c10_single_request_in_flight ⟨true, 1⟩ "hello").1 (Or.inr rfl)
  · exact (c10_single_request_in_flight ChatState.start "hello").2.1
  · exact (c10_single_request_in_flight (sendMessageStart ChatState.start "hello").1
      "ignored").2.2 (ChatReachable.send ChatState.start "hello" ChatReachable.start)
